import Mathlib

/-!
# Verification of the inventor-ai novelty-check core

Shallow embedding of the repository's eBay client (`src/lib/search/ebay.ts`),
retail search agent (`runRetailSearchAgent` and helpers), and the search-cache
SQL schema and maintenance function (`search_cache`, `cleanup_expired_cache`).

Numbers that are JS floats in the source are modelled as rationals (`ℚ`);
timestamps (JS `Date.now()` milliseconds) are modelled as `ℕ`.  External
collaborators (the network, the Claude scoring oracle) are modelled as
explicit outcome parameters: a thrown JS exception becomes an explicit
outcome constructor, and `try`/`catch` becomes a `match` on that outcome.
-/

namespace InventorAI

/-! ## Process environment (`process.env`) -/

/-- The two environment variables read by the eBay client. -/
structure Env where
  ebayClientId : Option String
  ebayClientSecret : Option String
deriving DecidableEq

/-- JS truthiness of an optional string: `undefined` and `""` are falsy. -/
def truthy : Option String → Bool
  | none => false
  | some s => s ≠ ""

/-- Embeds `isEbayConfigured` from `src/lib/search/ebay.ts`:
`!!(process.env.EBAY_CLIENT_ID && process.env.EBAY_CLIENT_SECRET)`. -/
def isEbayConfigured (env : Env) : Bool :=
  truthy env.ebayClientId && truthy env.ebayClientSecret

/-- Embeds `getCredentialStatus` from `src/lib/search/ebay.ts`. -/
def getCredentialStatus (env : Env) : String :=
  if isEbayConfigured env then
    "eBay API credentials configured"
  else
    "eBay API credentials not configured. " ++
    "To enable real eBay product search, add EBAY_CLIENT_ID and EBAY_CLIENT_SECRET to your environment variables. " ++
    "Get your free credentials at: https://developer.ebay.com/my/keys"

/-! ## eBay data shapes (`src/lib/search/ebay.ts` interfaces) -/

structure EbayPrice where
  value : String
  currency : String
deriving DecidableEq

structure EbayImage where
  imageUrl : String
deriving DecidableEq

structure EbaySeller where
  username : String
  feedbackPercentage : String
  feedbackScore : Int
deriving DecidableEq

structure EbayCategory where
  categoryId : String
  categoryName : String
deriving DecidableEq

structure EbayLocation where
  city : String
  stateOrProvince : String
  country : String
deriving DecidableEq

/-- Embeds the `EbayProduct` interface.  The TS type lists `price` and
`condition` as required, but the code defensively tests `product.price ?`
and `product.condition ||`, so `price` is modelled as optional. -/
structure EbayProduct where
  itemId : String
  title : String
  itemWebUrl : String
  price : Option EbayPrice
  image : Option EbayImage
  additionalImages : Option (List EbayImage)
  condition : String
  seller : Option EbaySeller
  categories : Option (List EbayCategory)
  itemLocation : Option EbayLocation
deriving DecidableEq

/-- Embeds the `EbaySearchResponse` interface (fields consumed by
`searchEbay`: `itemSummaries` may be absent, `total` may be absent). -/
structure EbaySearchResponse where
  total : Option Nat
  itemSummaries : Option (List EbayProduct)
deriving DecidableEq

/-- Embeds the `EbaySearchResult` interface. -/
structure EbaySearchResult where
  success : Bool
  products : List EbayProduct
  total : Nat
  searchQuery : String
  error : Option String
deriving DecidableEq

/-! ## OAuth token cache and `getAccessToken` -/

/-- The module-level token cache `cachedToken : { token, expiresAt } | null`. -/
structure CachedToken where
  token : String
  expiresAt : Nat
deriving DecidableEq

/-- A thrown JS value: either an `Error` carrying a message, or any other
value (for which `searchEbay`'s catch produces `'Unknown error occurred'`). -/
inductive JsThrow
  | jsError (msg : String)
  | other
deriving DecidableEq

/-- The JS error message rendered by `searchEbay`'s catch block:
`error instanceof Error ? error.message : 'Unknown error occurred'`. -/
def jsThrowMessage : JsThrow → String
  | .jsError m => m
  | .other => "Unknown error occurred"

/-- Outcome of the OAuth token `fetch` in `getAccessToken`: the network may
throw, or an HTTP response arrives with `ok`, `status`, its error body text,
and (when parsed as JSON) `access_token` and `expires_in`. -/
inductive TokenFetchOutcome
  | thrown (e : JsThrow)
  | resp (ok : Bool) (status : Nat) (bodyText : String)
      (access_token : String) (expires_in : Nat)
deriving DecidableEq

/-- The message thrown when credentials are missing (`getAccessToken`). -/
def ebayNotConfiguredMsg : String :=
  "eBay API credentials not configured. Please set EBAY_CLIENT_ID and EBAY_CLIENT_SECRET environment variables. " ++
  "Get your credentials at: https://developer.ebay.com/my/keys"

/-- Embeds `getAccessToken` from `src/lib/search/ebay.ts`.  The module-level
mutable `cachedToken` is passed in and the updated cache is returned next to
the result; a thrown error is an `Except.error`.  `now` is `Date.now()`,
and the 5-minute refresh buffer is `5 * 60 * 1000` ms, exactly as in source:
`cachedToken.expiresAt > now + 5 * 60 * 1000`. -/
def getAccessToken (env : Env) (now : Nat) (cachedToken : Option CachedToken)
    (tokenFetch : TokenFetchOutcome) :
    Except JsThrow String × Option CachedToken :=
  if !truthy env.ebayClientId || !truthy env.ebayClientSecret then
    (.error (.jsError ebayNotConfiguredMsg), cachedToken)
  else
    match cachedToken with
    | some c =>
      if now + 5 * 60 * 1000 < c.expiresAt then
        (.ok c.token, some c)
      else
        match tokenFetch with
        | .thrown e => (.error e, cachedToken)
        | .resp ok status bodyText access_token expires_in =>
          if !ok then
            (.error (.jsError ("eBay OAuth failed (" ++ toString status ++ "): " ++ bodyText)),
             cachedToken)
          else
            (.ok access_token, some ⟨access_token, now + expires_in * 1000⟩)
    | none =>
      match tokenFetch with
      | .thrown e => (.error e, cachedToken)
      | .resp ok status bodyText access_token expires_in =>
        if !ok then
          (.error (.jsError ("eBay OAuth failed (" ++ toString status ++ "): " ++ bodyText)),
           cachedToken)
        else
          (.ok access_token, some ⟨access_token, now + expires_in * 1000⟩)

/-! ## `searchEbay` -/

/-- Options record of `searchEbay` (only used to build the request URL in
the source; it does not influence the modelled control flow). -/
structure EbaySearchOptions where
  limit : Option Nat
  offset : Option Nat
  filter : Option String
  sortOrder : Option String
deriving DecidableEq

/-- Outcome of the Browse-API `fetch` in `searchEbay`: network throw, a
non-`ok` HTTP response (status and body text), or an `ok` response whose
JSON body parsed to an `EbaySearchResponse`. -/
inductive SearchFetchOutcome
  | thrown (e : JsThrow)
  | errorResp (status : Nat) (bodyText : String)
  | okResp (data : EbaySearchResponse)
deriving DecidableEq

/-- The failure value built by `searchEbay`'s catch block. -/
def searchEbayFailure (query msg : String) : EbaySearchResult :=
  { success := false, products := [], total := 0, searchQuery := query, error := some msg }

/-- Embeds `searchEbay` from `src/lib/search/ebay.ts`.  The surrounding
`try`/`catch` is modelled by matching on the outcomes: every thrown error
is converted into the catch block's failure result.  The pair's second
component is the module-level `cachedToken` after the call (note the
401 branch sets `cachedToken = null` before throwing). -/
def searchEbay (env : Env) (now : Nat) (cachedToken : Option CachedToken)
    (query : String) (_options : EbaySearchOptions)
    (tokenFetch : TokenFetchOutcome) (searchFetch : SearchFetchOutcome) :
    EbaySearchResult × Option CachedToken :=
  match getAccessToken env now cachedToken tokenFetch with
  | (.error e, cache') => (searchEbayFailure query (jsThrowMessage e), cache')
  | (.ok _accessToken, cache') =>
    match searchFetch with
    | .thrown e => (searchEbayFailure query (jsThrowMessage e), cache')
    | .errorResp status bodyText =>
      if status == 401 then
        (searchEbayFailure query "eBay access token expired. Please retry.", none)
      else if status == 429 then
        (searchEbayFailure query "eBay API rate limit exceeded. Please try again later.", cache')
      else
        (searchEbayFailure query
          ("eBay search failed (" ++ toString status ++ "): " ++ bodyText), cache')
    | .okResp data =>
      ({ success := true,
         products := data.itemSummaries.getD [],
         total := data.total.getD 0,
         searchQuery := query,
         error := none }, cache')

/-! ## Novelty types (from `./types`, shapes fixed by their use in the agent
and by spec §3/§6: `NoveltyCheckRequest`, `NoveltyFinding`, `NoveltyResult`) -/

structure NoveltyCheckRequest where
  invention_name : String
  description : String
  problem_statement : Option String
  target_audience : Option String
  key_features : Option (List String)
deriving DecidableEq

/-- The `metadata` object built by `ebayProductToFinding` (fields exactly as
constructed there; values that may be `undefined` are `Option`s). -/
structure FindingMetadata where
  item_id : String
  price : String
  condition : String
  image_url : Option String
  seller_username : Option String
  seller_feedback : Option String
  categories : Option String
  location : Option String
deriving DecidableEq

structure NoveltyFinding where
  title : String
  description : String
  url : String
  similarity_score : ℚ
  source : String
  metadata : FindingMetadata
deriving DecidableEq

/-- The four-component `truth_scores` vector. -/
structure TruthScores where
  objective_truth : ℚ
  practical_truth : ℚ
  completeness : ℚ
  contextual_scope : ℚ
deriving DecidableEq

structure NoveltyResult where
  agent_type : String
  is_novel : Bool
  confidence : ℚ
  findings : List NoveltyFinding
  summary : String
  truth_scores : TruthScores
  search_query_used : String
  timestamp : Nat
deriving DecidableEq

/-! ## `ebayProductToFinding` (`src/lib/agents/retail-search` module) -/

/-- `${city || ''}, ${state || ''}, ${country || ''}` then
`.replace(/^, /, '').replace(/, $/, '')` — each `replace` with a
non-global regex rewrites at most one occurrence. -/
def formatLocation (loc : EbayLocation) : String :=
  let s := loc.city ++ ", " ++ loc.stateOrProvince ++ ", " ++ loc.country
  let s := if s.startsWith ", " then s.drop 2 else s
  if s.endsWith ", " then s.dropRight 2 else s

/-- Embeds `ebayProductToFinding`: converts an eBay product to a
`NoveltyFinding` with the placeholder `similarity_score: 0`
("Will be set by Claude analysis"). -/
def ebayProductToFinding (product : EbayProduct) : NoveltyFinding :=
  { title := product.title
    description := (if product.condition == "" then "New" else product.condition)
      ++ " - " ++ product.title
    url := product.itemWebUrl
    similarity_score := 0
    source := "eBay"
    metadata :=
      { item_id := product.itemId
        price := match product.price with
          | some p => p.currency ++ " " ++ p.value
          | none => "Price not available"
        condition := product.condition
        image_url := product.image.map (fun i => i.imageUrl)
        seller_username := product.seller.map (fun s => s.username)
        seller_feedback := match product.seller with
          | some s =>
            if s.feedbackPercentage == "" then none
            else some (s.feedbackPercentage ++ "%")
          | none => none
        categories := product.categories.map
          (fun cs => String.intercalate ", " (cs.map (fun c => c.categoryName)))
        location := product.itemLocation.map formatLocation } }

/-! ## The Claude scoring oracle boundary -/

/-- One element of the oracle's `product_analyses` array. -/
structure ProductAnalysis where
  item_id : String
  similarity_score : ℚ
  analysis : String
deriving DecidableEq

/-- The JSON object `runRetailSearchAgent` parses out of Claude's reply.
`product_analyses` is accessed as `analysisResult.product_analyses?` with
`|| []`, so it is optional. -/
structure AnalysisResult where
  is_novel : Bool
  confidence : ℚ
  product_analyses : Option (List ProductAnalysis)
  summary : String
  truth_scores : TruthScores
deriving DecidableEq

/-- Outcome of phase 2 (the `anthropic.messages.create` call, the
non-text-content check and `JSON.parse`): either everything up to and
including the parse succeeded with a well-typed `AnalysisResult`, or
somewhere in the `try` block an error was thrown. -/
inductive OracleOutcome
  | success (analysisResult : AnalysisResult)
  | failure (e : JsThrow)
deriving DecidableEq

/-- `new Map(analysisResult.product_analyses.map(a => [a.item_id, a]))`
followed by `.get key`: a JS `Map` built from pairs keeps the LAST pair
for a duplicated key. -/
def mapGet (analyses : List ProductAnalysis) (key : String) : Option ProductAnalysis :=
  analyses.foldl (fun acc a => if a.item_id == key then some a else acc) none

/-- The body of `findings.map(...)` in phase 2: overwrite the similarity
score (and the description, when the oracle's `analysis` string is truthy)
for findings whose `item_id` the oracle analyzed; leave the rest unchanged. -/
def updateFinding (analyses : List ProductAnalysis) (finding : NoveltyFinding) :
    NoveltyFinding :=
  match mapGet analyses finding.metadata.item_id with
  | some analysis =>
    { finding with
        similarity_score := analysis.similarity_score
        description :=
          if analysis.analysis == "" then finding.description else analysis.analysis }
  | none => finding

/-- The comparator `(a, b) => b.similarity_score - a.similarity_score`
passed to the (stable) JS `Array.prototype.sort`: `a` may stay before `b`
iff `b.similarity_score ≤ a.similarity_score`. -/
def simDesc (a b : NoveltyFinding) : Prop :=
  b.similarity_score ≤ a.similarity_score

instance : DecidableRel simDesc :=
  fun a b => inferInstanceAs (Decidable (b.similarity_score ≤ a.similarity_score))

/-! ## `runRetailSearchAgent` -/

/-- Embeds `runRetailSearchAgent`.  The two external calls are abstracted
as outcome thunks: `fetch` stands for `searchSimilarProducts(...)` (phase 1)
and `oracle` for the Claude call + JSON extraction (phase 2); `now` is the
`new Date()` timestamp.  The source's `try`/`catch` around phase 2 becomes
the `match` on `oracle ()`, so the function is total by construction: no
failure of either collaborator escapes as a thrown error. -/
def runRetailSearchAgent (env : Env) (fetch : Unit → EbaySearchResult)
    (oracle : Unit → OracleOutcome) (request : NoveltyCheckRequest)
    (now : Nat) : NoveltyResult :=
  if !isEbayConfigured env then
    { agent_type := "retail_search"
      is_novel := false
      confidence := 0
      findings := []
      summary := getCredentialStatus env
      truth_scores :=
        { objective_truth := 0, practical_truth := 0
          completeness := 0, contextual_scope := 0 }
      search_query_used := request.invention_name
      timestamp := now }
  else
    let ebayResult := fetch ()
    if !ebayResult.success then
      { agent_type := "retail_search"
        is_novel := false
        confidence := 0
        findings := []
        summary := "eBay API error: " ++
          (match ebayResult.error with | some m => m | none => "undefined")
        truth_scores :=
          { objective_truth := 0, practical_truth := 0
            completeness := 0, contextual_scope := 0 }
        search_query_used := ebayResult.searchQuery
        timestamp := now }
    else if ebayResult.products.length == 0 then
      { agent_type := "retail_search"
        is_novel := true
        confidence := 0.7
        findings := []
        summary := "No similar products found on eBay for \"" ++ ebayResult.searchQuery ++
          "\". This suggests the invention may be novel in the retail marketplace, though further research on other platforms is recommended."
        truth_scores :=
          { objective_truth := 0.8, practical_truth := 0.7
            completeness := 0.5, contextual_scope := 0.8 }
        search_query_used := ebayResult.searchQuery
        timestamp := now }
    else
      let findings := ebayResult.products.map ebayProductToFinding
      match oracle () with
      | .success analysisResult =>
        let productAnalyses := analysisResult.product_analyses.getD []
        let updatedFindings := findings.map (updateFinding productAnalyses)
        let sortedFindings := List.insertionSort simDesc updatedFindings
        { agent_type := "retail_search"
          is_novel := analysisResult.is_novel
          confidence := analysisResult.confidence
          findings := sortedFindings
          summary := analysisResult.summary
          truth_scores := analysisResult.truth_scores
          search_query_used := ebayResult.searchQuery
          timestamp := now }
      | .failure _ =>
        { agent_type := "retail_search"
          is_novel := false
          confidence := 0.3
          findings := findings
          summary := "Found " ++ toString findings.length ++
            " potentially similar products on eBay, but analysis failed. Manual review recommended."
          truth_scores :=
            { objective_truth := 0.6, practical_truth := 0.5
              completeness := 0.4, contextual_scope := 0.5 }
          search_query_used := ebayResult.searchQuery
          timestamp := now }

/-! ## The `search_cache` table and its maintenance
(SQL schema in `supabase` migration, `src/unnamed/part_000`) -/

/-- One row of `public.search_cache` (schema lines 8–19 of the migration):
`query_hash TEXT NOT NULL UNIQUE`, `expires_at TIMESTAMPTZ` nullable
(`NULL` = never expires). `query_params`/`results` (JSONB) are opaque
strings here; timestamps are `ℕ`. -/
structure CacheEntry where
  query_hash : String
  search_type : String
  query_params : String
  results : String
  result_count : Nat
  source_api : String
  expires_at : Option Nat
  created_at : Nat
  updated_at : Nat
deriving DecidableEq

/-- The `DELETE` predicate of `cleanup_expired_cache`:
`expires_at IS NOT NULL AND expires_at < NOW()`. -/
def entryExpired (now : Nat) (e : CacheEntry) : Bool :=
  match e.expires_at with
  | some t => t < now
  | none => false

/-- Embeds `public.cleanup_expired_cache()` from the migration: deletes
every row with `expires_at IS NOT NULL AND expires_at < NOW()` and returns
`ROW_COUNT` (the number of rows deleted), row by row over the table. -/
def cleanup_expired_cache (now : Nat) : List CacheEntry → List CacheEntry × Nat
  | [] => ([], 0)
  | e :: rest =>
    let (kept, deleted) := cleanup_expired_cache now rest
    if entryExpired now e then (kept, deleted + 1) else (e :: kept, deleted)

/-- Modelled from the spec: the row replacement performed by `put` on an
existing entry (§4.2): payload replaced, `updated_at` bumped, `expires_at`
recomputed; `query_hash` and `created_at` untouched. -/
def upsertRow (now : Nat) (stype params results : String) (rcount : Nat)
    (source : String) (expires : Option Nat) (e : CacheEntry) : CacheEntry :=
  { e with search_type := stype, query_params := params, results := results,
           result_count := rcount, source_api := source,
           expires_at := expires, updated_at := now }

/-- Modelled from the spec: the cache store's `put` (§4.2) — the repository
ships only the schema (with its `UNIQUE` constraint on `query_hash`) and
this upsert lives behind the API layer, absent from `src/`.  Per §4.2: if a
row with the fingerprint exists, replace its payload and bump `updated_at`,
recomputing `expires_at` from the ttl (`NULL` for the patent partition,
`now + ttl` — default 7 days — otherwise); else insert a whole new row.
The `UNIQUE` index makes this atomic: at most one row per fingerprint. -/
def cachePut (now : Nat) (fp stype params results : String) (rcount : Nat)
    (source : String) (ttl : Option Nat) (table : List CacheEntry) :
    List CacheEntry :=
  let expires : Option Nat :=
    if stype == "patent" then none else some (now + ttl.getD (7 * 24 * 60 * 60 * 1000))
  if table.any (fun e => e.query_hash == fp) then
    table.map (fun e =>
      if e.query_hash == fp then upsertRow now stype params results rcount source expires e
      else e)
  else
    { query_hash := fp, search_type := stype, query_params := params,
      results := results, result_count := rcount, source_api := source,
      expires_at := expires, created_at := now, updated_at := now } :: table

/-- Modelled from the spec: `invalidate(fingerprint)` (§4.2) — deletes the
entry if present, no-op if absent. -/
def cacheInvalidate (fp : String) (table : List CacheEntry) : List CacheEntry :=
  table.filter (fun e => !(e.query_hash == fp))

/-- One atomic operation against the store.  Concurrency (§4.2/§5) is
modelled as an arbitrary interleaving: the `UNIQUE` constraint serializes
same-fingerprint writers, so any concurrent execution is equivalent to some
sequence of these atomic steps, and entries are whole rows — partial writes
are not representable. -/
inductive CacheOp
  | put (now : Nat) (fp stype params results : String) (rcount : Nat)
      (source : String) (ttl : Option Nat)
  | invalidate (fp : String)
  | cleanup (now : Nat)
  | get (fp : String)
deriving DecidableEq

/-- Effect of one atomic operation on the table (`get` reads only; lazy
expiry on `get` per §4.2 does not delete rows). -/
def applyOp : CacheOp → List CacheEntry → List CacheEntry
  | .put now fp stype params results rcount source ttl, t =>
      cachePut now fp stype params results rcount source ttl t
  | .invalidate fp, t => cacheInvalidate fp t
  | .cleanup now, t => (cleanup_expired_cache now t).1
  | .get _, t => t

/-- The table reached from the empty store by a sequence of operations. -/
def runOps (ops : List CacheOp) : List CacheEntry :=
  ops.foldl (fun t op => applyOp op t) []

/-- At most one live entry per fingerprint. -/
def uniqueHashes (t : List CacheEntry) : Prop :=
  t.Pairwise (fun a b => a.query_hash ≠ b.query_hash)

/-! ## Helper lemmas -/

/-- Phase-1 findings carry the placeholder score `0`. -/
lemma ebayProductToFinding_score (p : EbayProduct) :
    (ebayProductToFinding p).similarity_score = 0 := rfl

lemma updateFinding_metadata (analyses : List ProductAnalysis) (f : NoveltyFinding) :
    (updateFinding analyses f).metadata = f.metadata := by
  unfold updateFinding
  cases mapGet analyses f.metadata.item_id <;> rfl

lemma updateFinding_score_of_some {analyses : List ProductAnalysis} {f : NoveltyFinding}
    {pa : ProductAnalysis} (h : mapGet analyses f.metadata.item_id = some pa) :
    (updateFinding analyses f).similarity_score = pa.similarity_score := by
  unfold updateFinding
  rw [h]

lemma updateFinding_of_none {analyses : List ProductAnalysis} {f : NoveltyFinding}
    (h : mapGet analyses f.metadata.item_id = none) :
    updateFinding analyses f = f := by
  unfold updateFinding
  rw [h]

/-- A value found in the JS analysis map is a member of the analyses list. -/
lemma mapGet_mem {analyses : List ProductAnalysis} {key : String}
    {pa : ProductAnalysis} (h : mapGet analyses key = pa) : pa ∈ analyses := by
  unfold mapGet at h
  suffices hgen : ∀ (l : List ProductAnalysis) (acc : Option ProductAnalysis),
      l.foldl (fun acc a => if a.item_id == key then some a else acc) acc = some pa →
      pa ∈ l ∨ acc = some pa by
    rcases hgen analyses none h with hmem | hnone
    · exact hmem
    · exact absurd hnone (by simp)
  intro l
  induction l with
  | nil => intro acc hacc; exact Or.inr hacc
  | cons a t ih =>
    intro acc hacc
    simp only [List.foldl_cons] at hacc
    rcases ih _ hacc with hmem | heq
    · exact Or.inl (List.mem_cons_of_mem _ hmem)
    · by_cases hk : a.item_id == key
      · rw [if_pos hk] at heq
        have : a = pa := Option.some.inj heq
        exact Or.inl (this ▸ List.mem_cons_self a t)
      · rw [if_neg hk] at heq
        exact Or.inr heq

lemma mapGet_nil (key : String) : mapGet [] key = none := rfl

/-! ## C1 -/

/-- **C1.** If the scoring-oracle call of phase 2 throws or its output cannot
be parsed (any `OracleOutcome.failure`), `runRetailSearchAgent` still returns
a valid `NoveltyResult`: the unscored phase-1 findings, the fixed low
confidence `0.3`, and a summary flagging that analysis failed and manual
review is recommended.  The embedding is a total function into
`NoveltyResult`, so the failure is never propagated as a thrown error. -/
theorem C1_oracle_failure_fallback (env : Env) (fetch : Unit → EbaySearchResult)
    (oracle : Unit → OracleOutcome) (request : NoveltyCheckRequest) (now : Nat)
    (hcfg : isEbayConfigured env = true)
    (hok : (fetch ()).success = true)
    (hne : (fetch ()).products ≠ [])
    (e : JsThrow) (hfail : oracle () = .failure e) :
    runRetailSearchAgent env fetch oracle request now =
      { agent_type := "retail_search"
        is_novel := false
        confidence := 0.3
        findings := (fetch ()).products.map ebayProductToFinding
        summary := "Found " ++ toString ((fetch ()).products.map ebayProductToFinding).length ++
          " potentially similar products on eBay, but analysis failed. Manual review recommended."
        truth_scores :=
          { objective_truth := 0.6, practical_truth := 0.5
            completeness := 0.4, contextual_scope := 0.5 }
        search_query_used := (fetch ()).searchQuery
        timestamp := now } := by
  have hlen : ((fetch ()).products.length == 0) = false := by
    simp only [beq_eq_false_iff_ne, ne_eq, List.length_eq_zero]
    exact hne
  simp only [runRetailSearchAgent, hcfg, hok, hlen, hfail, Bool.not_true,
    Bool.false_eq_true, if_false]

/-! ## C3 -/

/-- **C3.** If the provider fetch succeeds with zero candidate products,
the agent returns `is_novel = true`, confidence `0.7` (strictly below `1`),
an empty findings list, and the result does not depend on the scoring
oracle (the oracle is not invoked). -/
theorem C3_zero_candidates (env : Env) (fetch : Unit → EbaySearchResult)
    (oracle : Unit → OracleOutcome) (request : NoveltyCheckRequest) (now : Nat)
    (hcfg : isEbayConfigured env = true)
    (hok : (fetch ()).success = true)
    (hzero : (fetch ()).products = []) :
    (runRetailSearchAgent env fetch oracle request now).is_novel = true ∧
    (runRetailSearchAgent env fetch oracle request now).confidence = 0.7 ∧
    (runRetailSearchAgent env fetch oracle request now).confidence < 1 ∧
    (runRetailSearchAgent env fetch oracle request now).findings = [] ∧
    ∀ oracle2 : Unit → OracleOutcome,
      runRetailSearchAgent env fetch oracle2 request now =
      runRetailSearchAgent env fetch oracle request now := by
  have hlen : ((fetch ()).products.length == 0) = true := by
    simp [hzero]
  have hbranch : ∀ oracle2 : Unit → OracleOutcome,
      runRetailSearchAgent env fetch oracle2 request now =
      { agent_type := "retail_search"
        is_novel := true
        confidence := 0.7
        findings := []
        summary := "No similar products found on eBay for \"" ++ (fetch ()).searchQuery ++
          "\". This suggests the invention may be novel in the retail marketplace, though further research on other platforms is recommended."
        truth_scores :=
          { objective_truth := 0.8, practical_truth := 0.7
            completeness := 0.5, contextual_scope := 0.8 }
        search_query_used := (fetch ()).searchQuery
        timestamp := now } := by
    intro oracle2
    simp only [runRetailSearchAgent, hcfg, hok, hlen, Bool.not_true,
      Bool.false_eq_true, if_false, if_true]
  rw [hbranch oracle]
  refine ⟨rfl, rfl, by norm_num, rfl, ?_⟩
  intro oracle2
  rw [hbranch oracle2]

/-! ## C4 -/

/-- **C4.** When eBay credentials are not configured, the agent returns
confidence `0`, an empty findings list and a non-empty explanatory summary,
without throwing (the embedding is total) and without making any external
call: the result is independent of both the provider fetch and the oracle. -/
theorem C4_unconfigured (env : Env) (fetch : Unit → EbaySearchResult)
    (oracle : Unit → OracleOutcome) (request : NoveltyCheckRequest) (now : Nat)
    (hcfg : isEbayConfigured env = false) :
    (runRetailSearchAgent env fetch oracle request now).confidence = 0 ∧
    (runRetailSearchAgent env fetch oracle request now).findings = [] ∧
    (runRetailSearchAgent env fetch oracle request now).summary ≠ "" ∧
    ∀ (fetch2 : Unit → EbaySearchResult) (oracle2 : Unit → OracleOutcome),
      runRetailSearchAgent env fetch2 oracle2 request now =
      runRetailSearchAgent env fetch oracle request now := by
  have hbranch : ∀ (fetch2 : Unit → EbaySearchResult) (oracle2 : Unit → OracleOutcome),
      runRetailSearchAgent env fetch2 oracle2 request now =
      { agent_type := "retail_search"
        is_novel := false
        confidence := 0
        findings := []
        summary := getCredentialStatus env
        truth_scores :=
          { objective_truth := 0, practical_truth := 0
            completeness := 0, contextual_scope := 0 }
        search_query_used := request.invention_name
        timestamp := now } := by
    intro fetch2 oracle2
    simp only [runRetailSearchAgent, hcfg, Bool.not_false, if_true]
  rw [hbranch fetch oracle]
  refine ⟨rfl, rfl, ?_, ?_⟩
  · show getCredentialStatus env ≠ ""
    unfold getCredentialStatus
    rw [hcfg]
    simp only [Bool.false_eq_true, if_false]
    decide
  · intro fetch2 oracle2
    rw [hbranch fetch2 oracle2]

/-! ## Concrete fixtures for witnesses and counterexamples -/

def envOk : Env := { ebayClientId := some "client-id", ebayClientSecret := some "client-secret" }

def envMissing : Env := { ebayClientId := none, ebayClientSecret := none }

def sampleProduct : EbayProduct :=
  { itemId := "item-1", title := "Solar Phone Case"
    itemWebUrl := "https://www.ebay.com/itm/1"
    price := some { value := "19.99", currency := "USD" }
    image := none, additionalImages := none, condition := "New"
    seller := none, categories := none, itemLocation := none }

def fetchOne : Unit → EbaySearchResult := fun _ =>
  { success := true, products := [sampleProduct], total := 1
    searchQuery := "solar phone case", error := none }

def fetchNone : Unit → EbaySearchResult := fun _ =>
  { success := true, products := [], total := 0
    searchQuery := "solar phone case", error := none }

def sampleRequest : NoveltyCheckRequest :=
  { invention_name := "Solar Phone Case"
    description := "A phone case with an integrated solar panel"
    problem_statement := none, target_audience := none, key_features := none }

def oracleFail : Unit → OracleOutcome := fun _ => .failure (.jsError "Claude API error")

/-- An oracle reply whose `product_analyses` covers none of the findings. -/
def oracleEmptyAnalyses : Unit → OracleOutcome := fun _ =>
  .success { is_novel := false, confidence := 0.5, product_analyses := some []
             summary := "Some summary"
             truth_scores :=
               { objective_truth := 0.5, practical_truth := 0.5
                 completeness := 0.5, contextual_scope := 0.5 } }

def analysesOne : List ProductAnalysis :=
  [{ item_id := "item-1", similarity_score := 0.9, analysis := "Nearly identical product" }]

/-- An oracle reply that scores the single sample finding. -/
def oracleScoredResult : AnalysisResult :=
  { is_novel := false, confidence := 0.8, product_analyses := some analysesOne
    summary := "Close match exists"
    truth_scores :=
      { objective_truth := 0.8, practical_truth := 0.7
        completeness := 0.6, contextual_scope := 0.7 } }

def oracleScored : Unit → OracleOutcome := fun _ => .success oracleScoredResult

def scoredFinding : NoveltyFinding := updateFinding analysesOne (ebayProductToFinding sampleProduct)

/-- An oracle reply with an out-of-range confidence, adopted verbatim. -/
def oracleBadConfidence : Unit → OracleOutcome := fun _ =>
  .success { is_novel := false, confidence := 2, product_analyses := some []
             summary := "Some summary"
             truth_scores :=
               { objective_truth := 0, practical_truth := 0
                 completeness := 0, contextual_scope := 0 } }

/-! ## Witnesses for C1, C3, C4 -/

/-- Witness for C1 at a concrete input. -/
theorem C1_oracle_failure_fallback_witness :
    runRetailSearchAgent envOk fetchOne oracleFail sampleRequest 0 =
      { agent_type := "retail_search"
        is_novel := false
        confidence := 0.3
        findings := (fetchOne ()).products.map ebayProductToFinding
        summary := "Found " ++ toString ((fetchOne ()).products.map ebayProductToFinding).length ++
          " potentially similar products on eBay, but analysis failed. Manual review recommended."
        truth_scores :=
          { objective_truth := 0.6, practical_truth := 0.5
            completeness := 0.4, contextual_scope := 0.5 }
        search_query_used := (fetchOne ()).searchQuery
        timestamp := 0 } :=
  C1_oracle_failure_fallback envOk fetchOne oracleFail sampleRequest 0
    (by decide) rfl (by decide) (.jsError "Claude API error") rfl

/-- Witness for C3 at a concrete input. -/
theorem C3_zero_candidates_witness :
    (runRetailSearchAgent envOk fetchNone oracleFail sampleRequest 0).is_novel = true ∧
    (runRetailSearchAgent envOk fetchNone oracleFail sampleRequest 0).confidence < 1 ∧
    (runRetailSearchAgent envOk fetchNone oracleFail sampleRequest 0).findings = [] :=
  ⟨(C3_zero_candidates envOk fetchNone oracleFail sampleRequest 0 (by decide) rfl rfl).1,
   (C3_zero_candidates envOk fetchNone oracleFail sampleRequest 0 (by decide) rfl rfl).2.2.1,
   (C3_zero_candidates envOk fetchNone oracleFail sampleRequest 0 (by decide) rfl rfl).2.2.2.1⟩

/-- Witness for C4 at a concrete input. -/
theorem C4_unconfigured_witness :
    (runRetailSearchAgent envMissing fetchOne oracleFail sampleRequest 0).confidence = 0 ∧
    (runRetailSearchAgent envMissing fetchOne oracleFail sampleRequest 0).findings = [] ∧
    (runRetailSearchAgent envMissing fetchOne oracleFail sampleRequest 0).summary ≠ "" :=
  ⟨(C4_unconfigured envMissing fetchOne oracleFail sampleRequest 0 rfl).1,
   (C4_unconfigured envMissing fetchOne oracleFail sampleRequest 0 rfl).2.1,
   (C4_unconfigured envMissing fetchOne oracleFail sampleRequest 0 rfl).2.2.1⟩

/-! ## C2 and C5: the score/range characterization of returned findings -/

/-- Every finding returned by the agent carries either the similarity score
the oracle assigned to its `item_id`, or the phase-1 placeholder `0`. -/
lemma findings_score_characterization (env : Env) (fetch : Unit → EbaySearchResult)
    (oracle : Unit → OracleOutcome) (request : NoveltyCheckRequest) (now : Nat) :
    ∀ f ∈ (runRetailSearchAgent env fetch oracle request now).findings,
      (∃ a pa, oracle () = .success a ∧
        mapGet (a.product_analyses.getD []) f.metadata.item_id = some pa ∧
        f.similarity_score = pa.similarity_score) ∨
      f.similarity_score = 0 := by
  intro f hf
  by_cases hcfg : isEbayConfigured env
  · by_cases hok : (fetch ()).success
    · by_cases hlen : ((fetch ()).products.length == 0)
      · simp only [runRetailSearchAgent, hcfg, hok, hlen, Bool.not_true,
          Bool.false_eq_true, if_false, if_true] at hf
        exact absurd hf (List.not_mem_nil f)
      · rw [Bool.not_eq_true] at hlen
        rcases horacle : oracle () with a | e
        · simp only [runRetailSearchAgent, hcfg, hok, hlen, horacle, Bool.not_true,
            Bool.false_eq_true, if_false] at hf
          have hf' : f ∈ ((fetch ()).products.map ebayProductToFinding).map
              (updateFinding (a.product_analyses.getD [])) :=
            (List.perm_insertionSort simDesc _).mem_iff.mp hf
          rcases List.mem_map.mp hf' with ⟨g, hg, rfl⟩
          rcases hcase : mapGet (a.product_analyses.getD []) g.metadata.item_id with _ | pa
          · rw [updateFinding_of_none hcase]
            rcases List.mem_map.mp hg with ⟨p, _, rfl⟩
            exact Or.inr (ebayProductToFinding_score p)
          · refine Or.inl ⟨a, pa, rfl, ?_, ?_⟩
            · rw [updateFinding_metadata]
              exact hcase
            · exact updateFinding_score_of_some hcase
        · simp only [runRetailSearchAgent, hcfg, hok, hlen, horacle, Bool.not_true,
            Bool.false_eq_true, if_false] at hf
          rcases List.mem_map.mp hf with ⟨p, _, rfl⟩
          exact Or.inr (ebayProductToFinding_score p)
    · rw [Bool.not_eq_true] at hok
      simp only [runRetailSearchAgent, hcfg, hok, Bool.not_true, Bool.not_false,
        Bool.false_eq_true, if_false, if_true] at hf
      exact absurd hf (List.not_mem_nil f)
  · rw [Bool.not_eq_true] at hcfg
    simp only [runRetailSearchAgent, hcfg, Bool.not_false, if_true] at hf
    exact absurd hf (List.not_mem_nil f)

/-- **C2, counterexample.** With one fetched product and a successfully
parsed oracle reply whose `product_analyses` is empty, the agent returns a
non-empty findings list in which no finding's `item_id` was resolved by the
oracle: the unresolved finding is included (with the placeholder score)
rather than excluded, so the claim as stated is false. -/
theorem C2_counterexample :
    (runRetailSearchAgent envOk fetchOne oracleEmptyAnalyses sampleRequest 0).findings.length = 1 ∧
    ((runRetailSearchAgent envOk fetchOne oracleEmptyAnalyses sampleRequest 0).findings.all
      (fun f => (mapGet [] f.metadata.item_id).isSome)) = false :=
  ⟨rfl, rfl⟩

/-- **C2, amended.** Every finding returned by `runRetailSearchAgent`
either carries the similarity score the oracle resolved for its `item_id`,
or carries the placeholder score `0` (unscored findings are included with
score `0`, not excluded). -/
theorem C2_amended_placeholder_exposed (env : Env) (fetch : Unit → EbaySearchResult)
    (oracle : Unit → OracleOutcome) (request : NoveltyCheckRequest) (now : Nat) :
    ∀ f ∈ (runRetailSearchAgent env fetch oracle request now).findings,
      (∃ a pa, oracle () = .success a ∧
        mapGet (a.product_analyses.getD []) f.metadata.item_id = some pa ∧
        f.similarity_score = pa.similarity_score) ∨
      f.similarity_score = 0 :=
  findings_score_characterization env fetch oracle request now

/-- Witness for the amended C2 at a concrete input. -/
theorem C2_amended_placeholder_exposed_witness :
    (∃ a pa, oracleScored () = OracleOutcome.success a ∧
      mapGet (a.product_analyses.getD []) scoredFinding.metadata.item_id = some pa ∧
      scoredFinding.similarity_score = pa.similarity_score) ∨
    scoredFinding.similarity_score = 0 :=
  C2_amended_placeholder_exposed envOk fetchOne oracleScored sampleRequest 0
    scoredFinding (by exact List.mem_singleton.mpr rfl)

/-! ## C5 -/

/-- The unit interval membership used by the spec's range invariants. -/
def inUnit (q : ℚ) : Prop := 0 ≤ q ∧ q ≤ 1

/-- All four `truth_scores` components in `[0,1]`. -/
def truthScoresInUnit (t : TruthScores) : Prop :=
  inUnit t.objective_truth ∧ inUnit t.practical_truth ∧
  inUnit t.completeness ∧ inUnit t.contextual_scope

/-- **C5, counterexample.** On the branch that adopts the scoring oracle's
output verbatim, no validation or clamping is applied: an oracle reply with
`confidence: 2` yields a `NoveltyResult` with confidence `2 ∉ [0,1]`, so
the claim as stated is false. -/
theorem C5_counterexample :
    (runRetailSearchAgent envOk fetchOne oracleBadConfidence sampleRequest 0).confidence = 2 ∧
    ¬ (runRetailSearchAgent envOk fetchOne oracleBadConfidence sampleRequest 0).confidence ≤ 1 := by
  have h : (runRetailSearchAgent envOk fetchOne oracleBadConfidence sampleRequest 0).confidence = 2 :=
    rfl
  refine ⟨h, ?_⟩
  rw [h]
  norm_num

/-- **C5, amended.** On every branch other than the oracle-success branch,
`confidence`, the four `truth_scores` components, and all finding
similarity scores are fixed constants in `[0,1]`; on the oracle-success
branch they are adopted verbatim, so they lie in `[0,1]` whenever the
oracle's reported values do (unscored findings carry the placeholder `0`).
Hence under the stated range assumption on the oracle's output, every
returned value is in `[0,1]`. -/
theorem C5_amended_ranges (env : Env) (fetch : Unit → EbaySearchResult)
    (oracle : Unit → OracleOutcome) (request : NoveltyCheckRequest) (now : Nat)
    (hor : ∀ a, oracle () = .success a →
      inUnit a.confidence ∧ truthScoresInUnit a.truth_scores ∧
      ∀ l, a.product_analyses = some l → ∀ pa ∈ l, inUnit pa.similarity_score) :
    inUnit (runRetailSearchAgent env fetch oracle request now).confidence ∧
    truthScoresInUnit (runRetailSearchAgent env fetch oracle request now).truth_scores ∧
    ∀ f ∈ (runRetailSearchAgent env fetch oracle request now).findings,
      inUnit f.similarity_score := by
  have hfind : ∀ f ∈ (runRetailSearchAgent env fetch oracle request now).findings,
      inUnit f.similarity_score := by
    intro f hf
    rcases findings_score_characterization env fetch oracle request now f hf with
      ⟨a, pa, horacle, hget, hscore⟩ | hzero
    · rw [hscore]
      have hpa := mapGet_mem hget
      rcases hl : a.product_analyses with _ | l
      · rw [hl] at hpa
        exact absurd hpa (List.not_mem_nil pa)
      · exact (hor a horacle).2.2 l hl pa (by rw [hl] at hpa; exact hpa)
    · rw [hzero]
      exact ⟨le_refl 0, by norm_num⟩
  refine ⟨?_, ?_, hfind⟩ <;>
  · by_cases hcfg : isEbayConfigured env
    · by_cases hok : (fetch ()).success
      · by_cases hlen : ((fetch ()).products.length == 0)
        · simp only [runRetailSearchAgent, hcfg, hok, hlen, Bool.not_true,
            Bool.false_eq_true, if_false, if_true]
          norm_num [inUnit, truthScoresInUnit]
        · rw [Bool.not_eq_true] at hlen
          rcases horacle : oracle () with a | e
          · simp only [runRetailSearchAgent, hcfg, hok, hlen, horacle, Bool.not_true,
              Bool.false_eq_true, if_false]
            first
            | exact (hor a horacle).1
            | exact (hor a horacle).2.1
          · simp only [runRetailSearchAgent, hcfg, hok, hlen, horacle, Bool.not_true,
              Bool.false_eq_true, if_false]
            norm_num [inUnit, truthScoresInUnit]
      · rw [Bool.not_eq_true] at hok
        simp only [runRetailSearchAgent, hcfg, hok, Bool.not_true, Bool.not_false,
          Bool.false_eq_true, if_false, if_true]
        norm_num [inUnit, truthScoresInUnit]
    · rw [Bool.not_eq_true] at hcfg
      simp only [runRetailSearchAgent, hcfg, Bool.not_false, if_true]
      norm_num [inUnit, truthScoresInUnit]

/-- Witness for the amended C5 at a concrete input (oracle fails, so the
range assumption on its output holds vacuously). -/
theorem C5_amended_ranges_witness :
    inUnit (runRetailSearchAgent envOk fetchOne oracleFail sampleRequest 0).confidence ∧
    truthScoresInUnit (runRetailSearchAgent envOk fetchOne oracleFail sampleRequest 0).truth_scores :=
  ⟨(C5_amended_ranges envOk fetchOne oracleFail sampleRequest 0 (fun _ h => nomatch h)).1,
   (C5_amended_ranges envOk fetchOne oracleFail sampleRequest 0 (fun _ h => nomatch h)).2.1⟩

/-! ## C9: the descending, stable sort of phase-2 findings -/

instance : IsTotal NoveltyFinding simDesc :=
  ⟨fun a b => le_total b.similarity_score a.similarity_score⟩

instance : IsTrans NoveltyFinding simDesc :=
  ⟨fun _ _ _ hab hbc => le_trans hbc hab⟩

/-- Inserting with the descending comparator commutes with filtering by an
exact score: elements skipped before the insertion point have a strictly
larger score than the inserted one. -/
lemma filter_orderedInsert_simDesc (s : ℚ) (f : NoveltyFinding) (l : List NoveltyFinding) :
    (List.orderedInsert simDesc f l).filter (fun g => g.similarity_score == s) =
    (f :: l).filter (fun g => g.similarity_score == s) := by
  induction l with
  | nil => rfl
  | cons b t ih =>
    by_cases h : simDesc f b
    · rw [List.orderedInsert_of_le simDesc t h]
    · simp only [List.orderedInsert, if_neg h]
      have hfb : f.similarity_score < b.similarity_score := lt_of_not_le h
      by_cases hpf : (f.similarity_score == s) = true
      · have hs : f.similarity_score = s := beq_iff_eq.mp hpf
        have hpb : (b.similarity_score == s) = false := by
          rw [beq_eq_false_iff_ne]
          intro hbs
          rw [hbs, ← hs] at hfb
          exact lt_irrefl _ hfb
        simp [List.filter_cons, hpf, hpb, ih]
      · have hpf' : (f.similarity_score == s) = false := by
          rw [Bool.not_eq_true] at hpf
          exact hpf
        simp [List.filter_cons, hpf', ih]

/-- The stable insertion sort commutes with filtering by an exact score:
ties keep their input order. -/
lemma filter_insertionSort_simDesc (s : ℚ) (l : List NoveltyFinding) :
    (List.insertionSort simDesc l).filter (fun g => g.similarity_score == s) =
    l.filter (fun g => g.similarity_score == s) := by
  induction l with
  | nil => rfl
  | cons b t ih =>
    show ((List.insertionSort simDesc t).orderedInsert simDesc b).filter _ = _
    rw [filter_orderedInsert_simDesc, List.filter_cons, List.filter_cons, ih]

/-- **C9.** On the successful-scoring branch the returned findings list is
the oracle-updated findings sorted by `similarity_score` descending
(`simDesc`), it is a permutation of them, and for every score value the
sublist of findings with exactly that score keeps its input order (the
JS `Array.prototype.sort` is stable, modelled by the stable insertion
sort). -/
theorem C9_sorted_descending_stable (env : Env) (fetch : Unit → EbaySearchResult)
    (oracle : Unit → OracleOutcome) (request : NoveltyCheckRequest) (now : Nat)
    (hcfg : isEbayConfigured env = true)
    (hok : (fetch ()).success = true)
    (hne : (fetch ()).products ≠ [])
    (a : AnalysisResult) (horacle : oracle () = .success a) :
    List.Sorted simDesc (runRetailSearchAgent env fetch oracle request now).findings ∧
    List.Perm (runRetailSearchAgent env fetch oracle request now).findings
      (((fetch ()).products.map ebayProductToFinding).map
        (updateFinding (a.product_analyses.getD []))) ∧
    ∀ s : ℚ,
      (runRetailSearchAgent env fetch oracle request now).findings.filter
        (fun g => g.similarity_score == s) =
      (((fetch ()).products.map ebayProductToFinding).map
        (updateFinding (a.product_analyses.getD []))).filter
        (fun g => g.similarity_score == s) := by
  have hlen : ((fetch ()).products.length == 0) = false := by
    simp only [beq_eq_false_iff_ne, ne_eq, List.length_eq_zero]
    exact hne
  have hres : (runRetailSearchAgent env fetch oracle request now).findings =
      List.insertionSort simDesc (((fetch ()).products.map ebayProductToFinding).map
        (updateFinding (a.product_analyses.getD []))) := by
    simp only [runRetailSearchAgent, hcfg, hok, hlen, horacle, Bool.not_true,
      Bool.false_eq_true, if_false]
  rw [hres]
  exact ⟨List.sorted_insertionSort simDesc _, List.perm_insertionSort simDesc _,
    fun s => filter_insertionSort_simDesc s _⟩

/-- Witness for C9 at a concrete input. -/
theorem C9_sorted_descending_stable_witness :
    List.Sorted simDesc
      (runRetailSearchAgent envOk fetchOne oracleScored sampleRequest 0).findings ∧
    (runRetailSearchAgent envOk fetchOne oracleScored sampleRequest 0).findings.filter
        (fun g => g.similarity_score == (0.9 : ℚ)) =
      (((fetchOne ()).products.map ebayProductToFinding).map
        (updateFinding (((oracleScoredResult).product_analyses).getD []))).filter
        (fun g => g.similarity_score == (0.9 : ℚ)) :=
  ⟨(C9_sorted_descending_stable envOk fetchOne oracleScored sampleRequest 0
      (by decide) rfl (by decide) oracleScoredResult rfl).1,
   (C9_sorted_descending_stable envOk fetchOne oracleScored sampleRequest 0
      (by decide) rfl (by decide) oracleScoredResult rfl).2.2 0.9⟩

/-! ## C6: the maintenance sweep -/

/-- Unfolding equation for `cleanup_expired_cache` on a cons cell. -/
lemma cleanup_cons (now : Nat) (e : CacheEntry) (rest : List CacheEntry) :
    cleanup_expired_cache now (e :: rest) =
      if entryExpired now e then
        ((cleanup_expired_cache now rest).1, (cleanup_expired_cache now rest).2 + 1)
      else
        (e :: (cleanup_expired_cache now rest).1, (cleanup_expired_cache now rest).2) := by
  cases hkd : cleanup_expired_cache now rest with
  | mk kept deleted => simp [cleanup_expired_cache, hkd]

/-- The sweep keeps exactly the non-expired rows, in order. -/
lemma cleanup_fst_eq_filter (now : Nat) (t : List CacheEntry) :
    (cleanup_expired_cache now t).1 = t.filter (fun e => !entryExpired now e) := by
  induction t with
  | nil => rfl
  | cons e rest ih =>
    rw [cleanup_cons]
    by_cases h : entryExpired now e <;> simp [h, ih, List.filter_cons]

/-- The sweep's return value counts exactly the expired rows. -/
lemma cleanup_snd_eq_length_filter (now : Nat) (t : List CacheEntry) :
    (cleanup_expired_cache now t).2 = (t.filter (fun e => entryExpired now e)).length := by
  induction t with
  | nil => rfl
  | cons e rest ih =>
    rw [cleanup_cons]
    by_cases h : entryExpired now e <;> simp [h, ih, List.filter_cons]

/-- An immediate second sweep deletes nothing. -/
lemma cleanup_idem (now : Nat) (t : List CacheEntry) :
    (cleanup_expired_cache now ((cleanup_expired_cache now t).1)).2 = 0 := by
  induction t with
  | nil => rfl
  | cons e rest ih =>
    rw [cleanup_cons]
    by_cases h : entryExpired now e
    · simpa [h] using ih
    · rw [if_neg h, cleanup_cons, if_neg h]
      exact ih

/-- **C6.** `cleanup_expired_cache` deletes exactly the entries whose
`expires_at` is non-null and earlier than `now` (`entryExpired`), leaves
every other entry — including null-expiry entries — unchanged and in
order, returns the number of entries deleted, and an immediate second run
deletes `0` entries. -/
theorem C6_cleanup_expired_cache_exact (now : Nat) (table : List CacheEntry) :
    (cleanup_expired_cache now table).1 = table.filter (fun e => !entryExpired now e) ∧
    (cleanup_expired_cache now table).2 =
      (table.filter (fun e => entryExpired now e)).length ∧
    (cleanup_expired_cache now ((cleanup_expired_cache now table).1)).2 = 0 :=
  ⟨cleanup_fst_eq_filter now table, cleanup_snd_eq_length_filter now table,
   cleanup_idem now table⟩

/-! ## C7: fingerprint uniqueness is invariant -/

lemma upsertRow_query_hash (now : Nat) (stype params results : String) (rcount : Nat)
    (source : String) (expires : Option Nat) (e : CacheEntry) :
    (upsertRow now stype params results rcount source expires e).query_hash = e.query_hash :=
  rfl

lemma cachePut_unique (now : Nat) (fp stype params results : String) (rcount : Nat)
    (source : String) (ttl : Option Nat) {t : List CacheEntry} (h : uniqueHashes t) :
    uniqueHashes (cachePut now fp stype params results rcount source ttl t) := by
  unfold cachePut uniqueHashes
  by_cases hmem : t.any (fun e => e.query_hash == fp)
  · rw [if_pos hmem, List.pairwise_map]
    refine h.imp ?_
    intro a b hab
    have ha : ∀ e : CacheEntry,
        (if e.query_hash == fp then upsertRow now stype params results rcount source
          (if stype == "patent" then none
           else some (now + ttl.getD (7 * 24 * 60 * 60 * 1000))) e
         else e).query_hash = e.query_hash := by
      intro e
      split <;> rfl
    rw [ha a, ha b]
    exact hab
  · rw [if_neg hmem]
    refine List.pairwise_cons.mpr ⟨?_, h⟩
    intro b hb
    have hany : (t.any (fun e => e.query_hash == fp)) = false :=
      eq_false_of_ne_true hmem
    have hall : ∀ e ∈ t, (e.query_hash == fp) = false :=
      fun e he => eq_false_of_ne_true (List.any_eq_false.mp hany e he)
    have : (b.query_hash == fp) = false := hall b hb
    exact fun hq => (beq_eq_false_iff_ne.mp this) (by rw [← hq])

lemma cacheInvalidate_unique (fp : String) {t : List CacheEntry} (h : uniqueHashes t) :
    uniqueHashes (cacheInvalidate fp t) :=
  List.Pairwise.sublist (List.filter_sublist t) h

lemma cleanup_unique (now : Nat) {t : List CacheEntry} (h : uniqueHashes t) :
    uniqueHashes ((cleanup_expired_cache now t).1) := by
  rw [cleanup_fst_eq_filter]
  exact List.Pairwise.sublist (List.filter_sublist t) h

lemma applyOp_unique (op : CacheOp) {t : List CacheEntry} (h : uniqueHashes t) :
    uniqueHashes (applyOp op t) := by
  cases op with
  | put now fp stype params results rcount source ttl =>
    exact cachePut_unique now fp stype params results rcount source ttl h
  | invalidate fp => exact cacheInvalidate_unique fp h
  | cleanup now => exact cleanup_unique now h
  | get _ => exact h

/-- **C7.** At every state reachable from the empty store by any sequence
of `put`/`get`/`invalidate`/`cleanup` operations — any interleaving of
concurrent callers, since each operation is a single atomic step — each
`query_hash` identifies at most one live entry.  Entries are whole rows in
this model, so partial writes are not representable. -/
theorem C7_fingerprint_uniqueness (ops : List CacheOp) : uniqueHashes (runOps ops) := by
  suffices hgen : ∀ (l : List CacheOp) (t : List CacheEntry), uniqueHashes t →
      uniqueHashes (l.foldl (fun t op => applyOp op t) t) by
    exact hgen ops [] List.Pairwise.nil
  intro l
  induction l with
  | nil => intro t h; exact h
  | cons op rest ih =>
    intro t h
    exact ih _ (applyOp_unique op h)

/-! ## C8: the OAuth token refresh policy -/

/-- **C8.** `getAccessToken` (with credentials configured) returns the
cached token exactly when its recorded expiry is more than the 5-minute
buffer in the future; otherwise it fetches a fresh token and caches it
with expiry `now + expires_in * 1000`; and every successfully returned
token is cached with a recorded expiry not in the past — no caller is
handed a token already known to be expired. -/
theorem C8_token_refresh_policy (env : Env) (now : Nat) (cached : Option CachedToken)
    (tf : TokenFetchOutcome) (hcfg : isEbayConfigured env = true) :
    (∀ c, cached = some c → now + 5 * 60 * 1000 < c.expiresAt →
      getAccessToken env now cached tf = (.ok c.token, some c)) ∧
    (∀ status bodyText tok exp, tf = .resp true status bodyText tok exp →
      (cached = none ∨ ∃ c, cached = some c ∧ ¬ now + 5 * 60 * 1000 < c.expiresAt) →
      getAccessToken env now cached tf = (.ok tok, some ⟨tok, now + exp * 1000⟩)) ∧
    (∀ t st, getAccessToken env now cached tf = (.ok t, st) →
      ∃ c, st = some c ∧ c.token = t ∧ now ≤ c.expiresAt) := by
  have hcfg' := hcfg
  rw [isEbayConfigured, Bool.and_eq_true] at hcfg'
  obtain ⟨h1, h2⟩ := hcfg'
  refine ⟨?_, ?_, ?_⟩
  · intro c hc hlt
    subst hc
    simp only [getAccessToken, h1, h2, Bool.not_true, Bool.or_self, Bool.false_eq_true,
      if_false, if_pos hlt]
  · intro status bodyText tok exp htf hcache
    subst htf
    rcases hcache with hnone | ⟨c, hc, hnlt⟩
    · subst hnone
      simp only [getAccessToken, h1, h2, Bool.not_true, Bool.or_self, Bool.false_eq_true,
        if_false]
    · subst hc
      simp only [getAccessToken, h1, h2, Bool.not_true, Bool.or_self, Bool.false_eq_true,
        if_false, if_neg hnlt]
  · intro t st hres
    cases cached with
    | none =>
      cases tf with
      | thrown e =>
        simp only [getAccessToken, h1, h2, Bool.not_true, Bool.or_self, Bool.false_eq_true,
          if_false, Prod.mk.injEq] at hres
        exact absurd hres.1 (by simp)
      | resp ok status bodyText tok exp =>
        cases ok with
        | false =>
          simp only [getAccessToken, h1, h2, Bool.not_true, Bool.not_false, Bool.or_self,
            Bool.false_eq_true, if_false, if_true, Prod.mk.injEq] at hres
          exact absurd hres.1 (by simp)
        | true =>
          simp only [getAccessToken, h1, h2, Bool.not_true, Bool.or_self, Bool.false_eq_true,
            if_false, Prod.mk.injEq, Except.ok.injEq] at hres
          exact ⟨⟨tok, now + exp * 1000⟩, hres.2.symm, hres.1, Nat.le_add_right now _⟩
    | some c =>
      by_cases hlt : now + 5 * 60 * 1000 < c.expiresAt
      · simp only [getAccessToken, h1, h2, Bool.not_true, Bool.or_self, Bool.false_eq_true,
          if_false, if_pos hlt, Prod.mk.injEq, Except.ok.injEq] at hres
        exact ⟨c, hres.2.symm, hres.1, le_trans (Nat.le_add_right now _) (le_of_lt hlt)⟩
      · cases tf with
        | thrown e =>
          simp only [getAccessToken, h1, h2, Bool.not_true, Bool.or_self, Bool.false_eq_true,
            if_false, if_neg hlt, Prod.mk.injEq] at hres
          exact absurd hres.1 (by simp)
        | resp ok status bodyText tok exp =>
          cases ok with
          | false =>
            simp only [getAccessToken, h1, h2, Bool.not_true, Bool.not_false, Bool.or_self,
              Bool.false_eq_true, if_false, if_true, if_neg hlt, Prod.mk.injEq] at hres
            exact absurd hres.1 (by simp)
          | true =>
            simp only [getAccessToken, h1, h2, Bool.not_true, Bool.or_self, Bool.false_eq_true,
              if_false, if_neg hlt, Prod.mk.injEq, Except.ok.injEq] at hres
            exact ⟨⟨tok, now + exp * 1000⟩, hres.2.symm, hres.1, Nat.le_add_right now _⟩

/-- Witness for C8 at a concrete input: a cached token whose expiry is
beyond the buffer is returned without fetching. -/
theorem C8_token_refresh_policy_witness :
    getAccessToken envOk 0 (some ⟨"cached-token", 400000⟩) (.thrown .other) =
      (.ok "cached-token", some ⟨"cached-token", 400000⟩) :=
  (C8_token_refresh_policy envOk 0 (some ⟨"cached-token", 400000⟩) (.thrown .other)
    (by decide)).1 ⟨"cached-token", 400000⟩ rfl (by norm_num)

/-! ## C10: `searchEbay` is total and failure results are well-shaped -/

lemma append_ne_empty_left {a : String} (b : String) (h : a ≠ "") : a ++ b ≠ "" := by
  intro hc
  have hd : (a ++ b).data = ([] : List Char) := by rw [hc]
  rw [String.data_append] at hd
  have ha : a.data = [] := (List.append_eq_nil.mp hd).1
  exact h (String.ext (by rw [ha]))

/-- Every error produced by `getAccessToken` is the missing-credentials
message, an OAuth-failed message, or the passthrough of a network throw. -/
lemma getAccessToken_error_cases (env : Env) (now : Nat) (cached : Option CachedToken)
    (tf : TokenFetchOutcome) (e : JsThrow) (st : Option CachedToken)
    (hres : getAccessToken env now cached tf = (.error e, st)) :
    e = .jsError ebayNotConfiguredMsg ∨
    (∃ (status : Nat) (bodyText : String),
      e = .jsError ("eBay OAuth failed (" ++ toString status ++ "): " ++ bodyText)) ∨
    tf = .thrown e := by
  by_cases hguard : (!truthy env.ebayClientId || !truthy env.ebayClientSecret) = true
  · simp only [getAccessToken, hguard, if_true, Prod.mk.injEq, Except.error.injEq] at hres
    exact Or.inl hres.1.symm
  · have hg : (!truthy env.ebayClientId || !truthy env.ebayClientSecret) = false :=
      eq_false_of_ne_true hguard
    cases cached with
    | none =>
      cases tf with
      | thrown e' =>
        simp only [getAccessToken, hg, Bool.false_eq_true, if_false, Prod.mk.injEq,
          Except.error.injEq] at hres
        exact Or.inr (Or.inr (by rw [hres.1]))
      | resp ok status bodyText tok exp =>
        cases ok with
        | false =>
          simp only [getAccessToken, hg, Bool.false_eq_true, if_false, Bool.not_false,
            if_true, Prod.mk.injEq, Except.error.injEq] at hres
          exact Or.inr (Or.inl ⟨status, bodyText, hres.1.symm⟩)
        | true =>
          simp only [getAccessToken, hg, Bool.false_eq_true, if_false, Bool.not_true,
            Prod.mk.injEq] at hres
          exact absurd hres.1 (by simp)
    | some c =>
      by_cases hlt : now + 5 * 60 * 1000 < c.expiresAt
      · simp only [getAccessToken, hg, Bool.false_eq_true, if_false, if_pos hlt,
          Prod.mk.injEq] at hres
        exact absurd hres.1 (by simp)
      · cases tf with
        | thrown e' =>
          simp only [getAccessToken, hg, Bool.false_eq_true, if_false, if_neg hlt,
            Prod.mk.injEq, Except.error.injEq] at hres
          exact Or.inr (Or.inr (by rw [hres.1]))
        | resp ok status bodyText tok exp =>
          cases ok with
          | false =>
            simp only [getAccessToken, hg, Bool.false_eq_true, if_false, if_neg hlt,
              Bool.not_false, if_true, Prod.mk.injEq, Except.error.injEq] at hres
            exact Or.inr (Or.inl ⟨status, bodyText, hres.1.symm⟩)
          | true =>
            simp only [getAccessToken, hg, Bool.false_eq_true, if_false, if_neg hlt,
              Bool.not_true, Prod.mk.injEq] at hres
            exact absurd hres.1 (by simp)

/-- The message a `getAccessToken` error renders to is never empty,
provided network throws carry non-empty `Error` messages. -/
lemma getAccessToken_error_msg_ne (env : Env) (now : Nat) (cached : Option CachedToken)
    (tf : TokenFetchOutcome) (e : JsThrow) (st : Option CachedToken)
    (hres : getAccessToken env now cached tf = (.error e, st))
    (htf : ∀ m, tf = .thrown (.jsError m) → m ≠ "") :
    jsThrowMessage e ≠ "" := by
  rcases getAccessToken_error_cases env now cached tf e st hres with
    hmsg | ⟨status, bodyText, hmsg⟩ | hthrown
  · rw [hmsg]
    decide
  · rw [hmsg]
    show ("eBay OAuth failed (" ++ toString status ++ "): " ++ bodyText) ≠ ""
    exact append_ne_empty_left _
      (append_ne_empty_left _ (append_ne_empty_left _ (by decide)))
  · cases e with
    | jsError m => exact htf m hthrown
    | other =>
      show "Unknown error occurred" ≠ ""
      decide

/-- **C10.** `searchEbay` is total (the embedding returns for every
outcome of every collaborator, so no failure mode throws), every failure
result has `success = false`, `products = []`, `total = 0`,
`searchQuery` equal to the input query and a non-empty error message
(assuming network throws carry non-empty `Error` messages, as `fetch`
rejections do), and an HTTP 401 search response clears the module-level
token cache before the failure result is returned. -/
theorem C10_searchEbay_failure_shape (env : Env) (now : Nat)
    (cached : Option CachedToken) (query : String) (options : EbaySearchOptions)
    (tf : TokenFetchOutcome) (sf : SearchFetchOutcome)
    (htf : ∀ m, tf = .thrown (.jsError m) → m ≠ "")
    (hsf : ∀ m, sf = .thrown (.jsError m) → m ≠ "") :
    ((searchEbay env now cached query options tf sf).1.success = false →
      (searchEbay env now cached query options tf sf).1.products = [] ∧
      (searchEbay env now cached query options tf sf).1.total = 0 ∧
      (searchEbay env now cached query options tf sf).1.searchQuery = query ∧
      ∃ m, (searchEbay env now cached query options tf sf).1.error = some m ∧ m ≠ "") ∧
    (∀ tok st, getAccessToken env now cached tf = (.ok tok, st) →
      ∀ bodyText, sf = .errorResp 401 bodyText →
        (searchEbay env now cached query options tf sf).2 = none ∧
        (searchEbay env now cached query options tf sf).1 =
          searchEbayFailure query "eBay access token expired. Please retry.") := by
  constructor
  · intro hfail
    cases hga : getAccessToken env now cached tf with
    | mk r st =>
      cases r with
      | error e =>
        have hse : searchEbay env now cached query options tf sf =
            (searchEbayFailure query (jsThrowMessage e), st) := by
          simp only [searchEbay, hga]
        rw [hse]
        exact ⟨rfl, rfl, rfl, jsThrowMessage e,
          rfl, getAccessToken_error_msg_ne env now cached tf e st hga htf⟩
      | ok tok =>
        cases sf with
        | thrown e =>
          have hse : searchEbay env now cached query options tf (.thrown e) =
              (searchEbayFailure query (jsThrowMessage e), st) := by
            simp only [searchEbay, hga]
          rw [hse]
          refine ⟨rfl, rfl, rfl, jsThrowMessage e, rfl, ?_⟩
          cases e with
          | jsError m => exact hsf m rfl
          | other =>
            show "Unknown error occurred" ≠ ""
            decide
        | errorResp status bodyText =>
          by_cases h401 : (status == 401) = true
          · have hse : searchEbay env now cached query options tf (.errorResp status bodyText) =
                (searchEbayFailure query "eBay access token expired. Please retry.", none) := by
              simp only [searchEbay, hga, h401, if_true]
            rw [hse]
            exact ⟨rfl, rfl, rfl, _, rfl, by decide⟩
          · by_cases h429 : (status == 429) = true
            · have hse : searchEbay env now cached query options tf (.errorResp status bodyText) =
                  (searchEbayFailure query
                    "eBay API rate limit exceeded. Please try again later.", st) := by
                simp only [searchEbay, hga, h401, h429, Bool.false_eq_true, if_false, if_true]
              rw [hse]
              exact ⟨rfl, rfl, rfl, _, rfl, by decide⟩
            · have hse : searchEbay env now cached query options tf (.errorResp status bodyText) =
                  (searchEbayFailure query
                    ("eBay search failed (" ++ toString status ++ "): " ++ bodyText), st) := by
                simp only [searchEbay, hga, h401, h429, Bool.false_eq_true, if_false]
              rw [hse]
              refine ⟨rfl, rfl, rfl, _, rfl, ?_⟩
              exact append_ne_empty_left _
                (append_ne_empty_left _ (append_ne_empty_left _ (by decide)))
        | okResp data =>
          have hse : (searchEbay env now cached query options tf (.okResp data)).1.success = true := by
            simp only [searchEbay, hga]
          rw [hse] at hfail
          exact absurd hfail (by simp)
  · intro tok st hga bodyText hsf'
    subst hsf'
    constructor
    · simp only [searchEbay, hga]
      rfl
    · simp only [searchEbay, hga]
      rfl

/-- Witness for C10 at a concrete input: missing credentials. -/
theorem C10_searchEbay_failure_shape_witness :
    (searchEbay envMissing 0 none "solar phone case" ⟨none, none, none, none⟩
      (.thrown .other) (.okResp ⟨some 0, none⟩)).1.products = [] ∧
    ∃ m, (searchEbay envMissing 0 none "solar phone case" ⟨none, none, none, none⟩
      (.thrown .other) (.okResp ⟨some 0, none⟩)).1.error = some m ∧ m ≠ "" :=
  ⟨((C10_searchEbay_failure_shape envMissing 0 none "solar phone case"
      ⟨none, none, none, none⟩ (.thrown .other) (.okResp ⟨some 0, none⟩)
      (fun _ h => nomatch h) (fun _ h => nomatch h)).1 rfl).1,
   ((C10_searchEbay_failure_shape envMissing 0 none "solar phone case"
      ⟨none, none, none, none⟩ (.thrown .other) (.okResp ⟨some 0, none⟩)
      (fun _ h => nomatch h) (fun _ h => nomatch h)).1 rfl).2.2.2⟩

end InventorAI
